import Mathlib

/-!
Shallow embedding of the f451-sensors configuration / sensor-registry
subsystem (`src/f451_sensors/sensors.py` and `src/f451_sensors/__main__.py`),
together with theorems settling the specification claims about it.

Python dictionaries are embedded as ordered association lists, Python
`Optional` values as `Option`, and code that can raise as `Except`-valued
functions.  The `ConfigParser` store is embedded as an ordered list of
sections with interpolation already resolved (the spec data-model invariant
for a valid `ConfigStore`), so `get` with a fallback is total, exactly as in
CPython where a provided fallback covers missing sections and options.
-/

namespace F451

/-! ### String primitives

`String.splitOn`, `String.trim` and friends are implemented by
well-founded recursion in core and do not reduce inside the kernel, so
the Python string operations used by the source are embedded structurally
over the character list of a string.  Both source delimiters (`|` and
`:`) are one-character strings, embedded as characters. -/

/-- Splitter for Python `s.split(c)` with a one-character separator:
splitting the empty string yields `[""]`, and empty pieces are kept. -/
def splitChars (c : Char) : List Char → List (List Char)
  | [] => [[]]
  | a :: rest =>
    match splitChars c rest with
    | [] => if a == c then [[], []] else [[a]]
    | h :: t => if a == c then [] :: h :: t else (a :: h) :: t

/-- Python `s.split(delim)` for a one-character delimiter. -/
def pySplit (delim : Char) (s : String) : List String :=
  (splitChars delim s.toList).map fun l => String.mk l

/-- Python whitespace for `str.strip()`. -/
def isPySpace (c : Char) : Bool :=
  c == ' ' || c == '\t' || c == '\n' || c == '\r' || c == '\x0b' || c == '\x0c'

/-- Python `s.strip()`: drop whitespace from both ends. -/
def pyStrip (s : String) : String :=
  String.mk (((s.toList.dropWhile isPySpace).reverse.dropWhile isPySpace).reverse)

/-! ### Constants (`src/f451_sensors/constants.py`) -/

def DELIM_STD : Char := '|'

def DELIM_VAL : Char := ':'

def SENSOR_MAIN : String := "f451_main"

def SENSOR_TEMP : String := "f451_temperature"

def SENSOR_HUMID : String := "f451_humidity"

def SENSOR_WIND : String := "f451_wind"

def SENSOR_RAIN : String := "f451_rain"

def SENSOR_SPEED : String := "f451_speed"

def KWD_SENSORS : String := "sensors"

def KWD_SENSOR_MAP : String := "sensor_map"

/-! ### The configuration store

`ConfigParser` with values already interpolation-resolved: an ordered list
of sections, each an ordered list of key/value pairs. -/

structure ConfigStore where
  sections : List (String × List (String × String))
  deriving DecidableEq, Repr

/-- `ConfigParser.has_section(name)`. -/
def ConfigStore.has_section (st : ConfigStore) (name : String) : Bool :=
  (st.sections.lookup name).isSome

/-- `ConfigParser.get(sctn, key, fallback=fb)`: with a fallback supplied,
CPython returns the fallback when the section or the option is missing. -/
def ConfigStore.get (st : ConfigStore) (sctn key fb : String) : String :=
  match st.sections.lookup sctn with
  | some kvs => (kvs.lookup key).getD fb
  | Option.none => fb

/-- Modelled from the spec: the `Chameleon` provider class
(`f451_sensors/providers/chameleon.py` is absent from src) is an opaque
provider handle; a class instance is always truthy in Python. -/
structure Chameleon where
  deriving DecidableEq, Repr

/-! ### Missing `utils.py` helpers (modelled from the spec) -/

/-- Modelled from the spec: `utils.process_config` (`utils.py` is absent
from src).  Per spec section 4.2, `build` consumes the merged `ConfigStore`
directly, so the conversion is the identity on an already-built store. -/
def process_config (config : ConfigStore) : ConfigStore :=
  config

/-- Modelled from the spec: `utils.process_key_value_map` (`utils.py` is
absent from src).  Per spec section 4.2, the sensor-map value is parsed as
delimited `key:value` pairs (`|` between pairs, `:` between key and value);
malformed pairs are skipped rather than failing the whole parse. -/
def process_key_value_map (s : String) : List (String × String) :=
  (pySplit DELIM_STD s).filterMap fun pair =>
    match pySplit DELIM_VAL pair with
    | [k, v] => some (k, v)
    | _ => Option.none

/-- Modelled from the spec: `utils.convert_attrib_str_to_list` (`utils.py`
is absent from src).  Per spec section 4.3 a delimited string is split on
`|`; falsy input degrades to the empty list. -/
def convert_attrib_str_to_list (s : Option String) : List String :=
  match s with
  | some str => if str != "" then pySplit DELIM_STD str else []
  | Option.none => []

/-! ### The `Sensors` registry (`src/f451_sensors/sensors.py`) -/

/-- The state written by `Sensors.__init__` via the three property setters
(`default_sensors`, `sensor_map`, `sensors`).  `_sensors` is the Python
dict literal of the `sensors` setter: five canonical keys in insertion
order, each mapped to an optional provider handle. -/
structure Sensors where
  _default_sensors : List String
  _sensor_map : List (String × String)
  _sensors : List (String × Option Chameleon)
  deriving DecidableEq, Repr

/-- `Sensors._init_temperature`: `None` when the section is absent, and
`None` as well when it is present (the provider construction is commented
out in the source). -/
def _init_temperature (settings : ConfigStore) : Option Chameleon :=
  if !settings.has_section SENSOR_TEMP then Option.none else Option.none

/-- `Sensors._init_humidity`. -/
def _init_humidity (settings : ConfigStore) : Option Chameleon :=
  if !settings.has_section SENSOR_HUMID then Option.none else Option.none

/-- `Sensors._init_wind`. -/
def _init_wind (settings : ConfigStore) : Option Chameleon :=
  if !settings.has_section SENSOR_WIND then Option.none else Option.none

/-- `Sensors._init_rain`. -/
def _init_rain (settings : ConfigStore) : Option Chameleon :=
  if !settings.has_section SENSOR_RAIN then Option.none else Option.none

/-- `Sensors._init_speed`. -/
def _init_speed (settings : ConfigStore) : Option Chameleon :=
  if !settings.has_section SENSOR_SPEED then Option.none else Option.none

/-- `Sensors.__init__(config)`: runs the three setters in source order.
The `default_sensors` setter is
`str(settings.get(SENSOR_MAIN, KWD_SENSORS, fallback="")).split(DELIM_STD)`
(`str` is the identity on the string returned by `get`); the `sensor_map`
setter feeds `settings.get(SENSOR_MAIN, KWD_SENSOR_MAP, fallback="")` to
`utils.process_key_value_map`; the `sensors` setter builds the dict of the
five per-sensor initializers. -/
def Sensors.build (config : ConfigStore) : Sensors :=
  let settings := process_config config
  ⟨pySplit DELIM_STD (settings.get SENSOR_MAIN KWD_SENSORS ""),
   process_key_value_map (settings.get SENSOR_MAIN KWD_SENSOR_MAP ""),
   [(SENSOR_TEMP, _init_temperature settings),
    (SENSOR_HUMID, _init_humidity settings),
    (SENSOR_WIND, _init_wind settings),
    (SENSOR_RAIN, _init_rain settings),
    (SENSOR_SPEED, _init_speed settings)]⟩

/-! ### Sensor-name arguments

`typeDefStringLists = Union[str, List[str], None]`, the declared argument
type of the name-list operations. -/

inductive StrOrList where
  | str (s : String)
  | list (xs : List String)
  | null
  deriving DecidableEq, Repr

/-- `Sensors._normalize_sensor_list` restricted to its declared argument
type: a truthy string splits on `|`; a truthy list whose elements are all
strings (guaranteed by the type here) passes through; everything else
yields `[]`. -/
def _normalize_sensor_list (inChannels : StrOrList) : List String :=
  match inChannels with
  | .str s => if s != "" then pySplit DELIM_STD s else []
  | .list xs => if !xs.isEmpty then xs else []
  | .null => []

/-- `Sensors._verify_sensor(chName, force)`. -/
def _verify_sensor (st : Sensors) (chName : String) (force : Bool) : Bool :=
  if force then
    chName != "" &&
      ((st._sensors.lookup chName).isSome || (st._sensor_map.lookup chName).isSome)
  else
    chName != ""

/-- `Sensors.is_valid_sensor(inChannels)`. -/
def is_valid_sensor (st : Sensors) (inChannels : StrOrList) : Bool :=
  let tmpList := _normalize_sensor_list inChannels
  if tmpList.isEmpty then false
  else tmpList.all fun ch => _verify_sensor st ch true

/-- `Sensors.is_enabled_sensor(inChannels)`: every normalized name must be
a key of `_sensors` whose value (the provider handle) is truthy; a `None`
handle is falsy. -/
def is_enabled_sensor (st : Sensors) (inChannels : StrOrList) : Bool :=
  let tmpList := _normalize_sensor_list inChannels
  if tmpList.isEmpty then false
  else tmpList.all fun ch => (st._sensors.lookup ch).any fun h => h.isSome

/-- `Sensors.process_sensor_list(inList, strict)`: the nested list
comprehension, inside out — strip each element, keep those passing
`_verify_sensor(_, strict)`, replace aliases through `_sensor_map`
(unmapped names pass through), keep those passing `is_enabled_sensor`. -/
def process_sensor_list (st : Sensors) (inList : StrOrList) (strict : Bool) :
    List String :=
  let tmpList :=
    match inList with
    | .list xs => xs
    | .str s => convert_attrib_str_to_list (some s)
    | .null => convert_attrib_str_to_list Option.none
  (((tmpList.map pyStrip).filter fun tmp => _verify_sensor st tmp strict).map
      fun item => ((st._sensor_map.lookup item).getD item)).filter
    fun ch => is_enabled_sensor st (.str ch)

/-! ### Dynamic-typing model for `_normalize_sensor_list`

The static method is reachable with arguments outside its declared type
(Python does not enforce annotations), so its full behaviour is embedded
over a small dynamic value space.  Iterating a non-iterable (such as an
`int`) in the `all(...)` generator raises `TypeError`. -/

inductive PyVal where
  | vstr (s : String)
  | vlist (xs : List PyVal)
  | vint (n : Int)
  | vnone

/-- Python truthiness on the embedded dynamic values. -/
def pyTruthy (v : PyVal) : Bool :=
  match v with
  | .vstr s => s != ""
  | .vlist xs => !xs.isEmpty
  | .vint n => n != 0
  | .vnone => false

/-- The strings of a list of dynamic values, when all of them are strings. -/
def allStrings (xs : List PyVal) : Option (List String) :=
  match xs with
  | [] => some []
  | .vstr s :: rest => (allStrings rest).map fun ss => s :: ss
  | _ :: _ => Option.none

inductive PyError where
  | typeError
  deriving DecidableEq, Repr

/-- `Sensors._normalize_sensor_list` over dynamic values: falsy input
returns `[]`; a string splits on `|`; an iterable passes through when all
elements are strings and otherwise falls through to `[]`; a truthy
non-iterable raises `TypeError` when the `all(...)` generator iterates
it. -/
def _normalize_sensor_list_dyn (inChannels : PyVal) : Except PyError (List String) :=
  if pyTruthy inChannels then
    match inChannels with
    | .vstr s => .ok (pySplit DELIM_STD s)
    | .vlist xs =>
      match allStrings xs with
      | some ss => .ok ss
      | Option.none => .ok []
    | _ => .error .typeError
  else
    .ok []

/-- Embedding of the declared argument type into the dynamic values. -/
def StrOrList.toPyVal (x : StrOrList) : PyVal :=
  match x with
  | .str s => .vstr s
  | .list xs => .vlist (xs.map PyVal.vstr)
  | .null => .vnone

/-! ### CLI config-file handling (`src/f451_sensors/__main__.py`)

The filesystem is an explicit parameter: for parsing, a partial map from
path to the (already lexed) INI content found there; for the location
search, an existence predicate.  `Path.expanduser` needs the home
directory as a parameter. -/

/-- The spec error taxonomy entry for `init_ini_parser`'s failure: the
source raises `ValueError` with a message naming the offending path. -/
inductive ConfigError where
  | configFileNotFound (path : String)
  deriving DecidableEq, Repr

/-- Whether a path begins with the two characters `~/`. -/
def startsWithTildeSlash (p : String) : Bool :=
  match p.toList with
  | '~' :: '/' :: _ => true
  | _ => false

/-- `Path(fn).expanduser()` for the `~`-prefixed forms used here (the
`~user` form is not modelled; no claim involves it). -/
def expanduser (home p : String) : String :=
  if p == "~" then home
  else if startsWithTildeSlash p then home ++ String.mk (p.toList.drop 1)
  else p

/-- Upsert of one key into a section, preserving order (`parser.read`
overrides key-for-key). -/
def setKey (kvs : List (String × String)) (k v : String) : List (String × String) :=
  match kvs with
  | [] => [(k, v)]
  | (k0, v0) :: rest =>
    if k0 == k then (k, v) :: rest else (k0, v0) :: setKey rest k v

/-- Merge one incoming section into the accumulated sections. -/
def mergeSection (secs : List (String × List (String × String)))
    (name : String) (kvs : List (String × String)) :
    List (String × List (String × String)) :=
  match secs with
  | [] => [(name, kvs)]
  | (n0, kvs0) :: rest =>
    if n0 == name then
      (n0, kvs.foldl (fun acc kv => setKey acc kv.1 kv.2) kvs0) :: rest
    else
      (n0, kvs0) :: mergeSection rest name kvs

/-- `parser.read(path)`: merge a file's sections into the accumulated
store; later files override earlier ones key-for-key within a section. -/
def ConfigStore.read (st file : ConfigStore) : ConfigStore :=
  ⟨file.sections.foldl (fun secs sec => mergeSection secs sec.1 sec.2) st.sections⟩

/-- The loop of `init_ini_parser`: for each path in order, expand the
user directory, fail naming the expanded path when it does not exist,
otherwise read and merge the file. -/
def initIniParserGo (fs : String → Option ConfigStore) (home : String)
    (acc : ConfigStore) : List String → Except ConfigError ConfigStore
  | [] => .ok acc
  | fn :: rest =>
    let tmpName := expanduser home fn
    match fs tmpName with
    | Option.none => .error (.configFileNotFound tmpName)
    | some content => initIniParserGo fs home (acc.read content) rest

/-- `init_ini_parser(fNames)` for a list argument (a non-list argument is
wrapped into a one-element list by the source before the loop). -/
def initIniParser (fs : String → Option ConfigStore) (home : String)
    (fNames : List String) : Except ConfigError ConfigStore :=
  initIniParserGo fs home ⟨[]⟩ fNames

/-- Spec-side characterization used to settle the `parse` claim: the
first path in the sequence whose expanded form does not exist. -/
def firstMissing (fs : String → Option ConfigStore) (home : String) :
    List String → Option String
  | [] => Option.none
  | fn :: rest =>
    let tmpName := expanduser home fn
    if (fs tmpName).isNone then some tmpName else firstMissing fs home rest

/-- Python `s.strip("/")`: drop `/` characters from both ends. -/
def stripSlashes (s : String) : String :=
  String.mk (((s.toList.dropWhile fun c => c == '/').reverse.dropWhile
    fun c => c == '/').reverse)

/-- `get_valid_location(inFName)`: the first existing path among the four
default locations, else the empty string.  The current working directory,
install directory, home directory and application name are parameters. -/
def get_valid_location (fexists : String → Bool)
    (cwd appDir home appName inFName : String) : String :=
  let cleanFName := stripSlashes inFName
  let defaultLocations :=
    [cwd ++ "/" ++ cleanFName,
     appDir ++ "/" ++ cleanFName,
     home ++ "/" ++ cleanFName,
     "/etc/" ++ appName ++ "/" ++ cleanFName]
  (defaultLocations.find? fexists).getD ""

/-- Python `a or b` on an optional string `a`: `None` and `""` are falsy
and fall through to `b`. -/
def pyOrStr (o : Option String) (d : String) : String :=
  match o with
  | some s => if s == "" then d else s
  | Option.none => d

/-- The config-file location expression of `main`:
`cliArgs.config or (os.environ.get(ENV_VAR) or get_valid_location(name))`. -/
def resolve_config_location (fexists : String → Bool)
    (cliPath envVal : Option String)
    (cwd appDir home appName fname : String) : String :=
  pyOrStr cliPath
    (pyOrStr envVal (get_valid_location fexists cwd appDir home appName fname))

/-! ### Shared helper lemmas -/

/-- A provider-handle lookup is truthy exactly when the key is present
with a non-`None` handle. -/
theorem any_isSome_iff (o : Option (Option Chameleon)) :
    (o.any fun h => h.isSome) = true ↔ ∃ c, o = some (some c) := by
  cases o with
  | none => simp [Option.any]
  | some v =>
    cases v with
    | none => simp [Option.any]
    | some c =>
      simp only [Option.any, Option.isSome, Option.some.injEq, true_iff]
      exact ⟨c, trivial⟩

/-- In a registry built from any store, every handle lookup is falsy:
each of the five initializers returns `None` in both of its branches. -/
theorem lookup_build_any_false (store : ConfigStore) (ch : String) :
    (((Sensors.build store)._sensors).lookup ch).any (fun h => h.isSome) = false := by
  simp only [Sensors.build, process_config, _init_temperature, _init_humidity,
    _init_wind, _init_rain, _init_speed, ite_self, List.lookup]
  repeat' split
  all_goals rfl

/-- `is_enabled_sensor` is false on every registry built from a store. -/
theorem is_enabled_build_false (store : ConfigStore) (inp : StrOrList) :
    is_enabled_sensor (Sensors.build store) inp = false := by
  unfold is_enabled_sensor
  cases hl : _normalize_sensor_list inp with
  | nil => simp [hl]
  | cons a t =>
    simp only [hl, List.isEmpty_cons, if_false, Bool.false_eq_true]
    simp [List.all_eq_true, lookup_build_any_false store]

/-! ### Claim C1 -/

/-- C1 (counterexample): for a store in which section `f451_temperature`
exists and `f451_humidity` does not, the temperature selection is NOT
enabled — `is_enabled_sensor` returns false both for the spec-level name
`temperature` and for the canonical key `f451_temperature`, contradicting
the claimed `isEnabledSelection(["temperature"]) == true`. -/
theorem is_enabled_sensor_present_section_counterexample :
    ConfigStore.has_section ⟨[(SENSOR_TEMP, [])]⟩ SENSOR_TEMP = true ∧
    ConfigStore.has_section ⟨[(SENSOR_TEMP, [])]⟩ SENSOR_HUMID = false ∧
    is_enabled_sensor (Sensors.build ⟨[(SENSOR_TEMP, [])]⟩)
      (.list ["temperature"]) = false ∧
    is_enabled_sensor (Sensors.build ⟨[(SENSOR_TEMP, [])]⟩)
      (.list ["f451_temperature"]) = false := by
  refine ⟨rfl, rfl, rfl, rfl⟩

/-- C1 (amended): `is_enabled_sensor` returns true iff the normalized name
list is non-empty and every element is a key of the registry map whose
stored provider handle is non-`None`; since every per-sensor initializer
returns `None`, it returns false for every selection on every registry
built from a `ConfigStore` — in particular a present `f451_temperature`
section does not make the temperature selection enabled. -/
theorem is_enabled_sensor_spec :
    (∀ (st : Sensors) (inp : StrOrList),
        is_enabled_sensor st inp = true ↔
          (_normalize_sensor_list inp ≠ [] ∧
            ∀ ch ∈ _normalize_sensor_list inp,
              ∃ c, st._sensors.lookup ch = some (some c))) ∧
    ∀ (store : ConfigStore) (inp : StrOrList),
      is_enabled_sensor (Sensors.build store) inp = false := by
  constructor
  · intro st inp
    unfold is_enabled_sensor
    cases hl : _normalize_sensor_list inp with
    | nil => simp [hl]
    | cons a t => simp [hl, List.all_eq_true, any_isSome_iff]
  · intro store inp
    exact is_enabled_build_false store inp

/-- C1 (witness): the amended statement applied at a concrete store and
selection. -/
theorem is_enabled_sensor_spec_witness :
    is_enabled_sensor (Sensors.build ⟨[(SENSOR_HUMID, [])]⟩)
      (.list ["f451_humidity"]) = false :=
  is_enabled_sensor_spec.2 ⟨[(SENSOR_HUMID, [])]⟩ (.list ["f451_humidity"])

/-! ### Claim C2 -/

/-- C2 (counterexample): with section `f451_temperature` present and the
alias `temp` mapped to its canonical key, `process_sensor_list` on
`["temp", "temp"]` with `strict=true` yields `[]`, not the claimed
two-element list — the final enablement filter discards everything
because every provider handle is `None`. -/
theorem process_sensor_list_alias_duplicates_counterexample :
    process_sensor_list
        (Sensors.build ⟨[(SENSOR_MAIN, [(KWD_SENSOR_MAP, "temp:f451_temperature")]),
          (SENSOR_TEMP, [])]⟩)
        (.list ["temp", "temp"]) true = [] ∧
    process_sensor_list
        (Sensors.build ⟨[(SENSOR_MAIN, [(KWD_SENSOR_MAP, "temp:f451_temperature")]),
          (SENSOR_TEMP, [])]⟩)
        (.list ["temp", "temp"]) true ≠ ["temperature", "temperature"] := by
  refine ⟨rfl, by decide⟩

/-- C2 (amended): `process_sensor_list` strips and normalizes its input,
filters by `_verify_sensor(_, strict)`, maps aliases to canonical keys
without deduplication, then keeps only enabled entries; because no sensor
is ever enabled in a registry built from a `ConfigStore` (every handle is
`None`), the result is the empty list for every input — in particular
`["temp", "temp"]` with `strict=true` yields `[]`. -/
theorem process_sensor_list_build_empty (store : ConfigStore)
    (inp : StrOrList) (strict : Bool) :
    process_sensor_list (Sensors.build store) inp strict = [] := by
  simp only [process_sensor_list]
  rw [List.filter_eq_nil_iff]
  intro a _
  simp [is_enabled_build_false]

/-- C2 (witness): the amended statement at the concrete example input. -/
theorem process_sensor_list_build_empty_witness :
    process_sensor_list
        (Sensors.build ⟨[(SENSOR_MAIN, [(KWD_SENSOR_MAP, "temp:temperature")])]⟩)
        (.str "temp|temp") true = [] :=
  process_sensor_list_build_empty
    ⟨[(SENSOR_MAIN, [(KWD_SENSOR_MAP, "temp:temperature")])]⟩ (.str "temp|temp") true

/-! ### Claim C10 -/

/-- C10: in every registry built from a `ConfigStore`, every provider
handle stored in the sensor map is `None`, so the truthiness test on a
looked-up handle is false for every key. -/
theorem build_handles_all_none (store : ConfigStore) :
    (((Sensors.build store)._sensors).all fun kv => kv.2.isNone) = true ∧
    ∀ ch : String,
      (((Sensors.build store)._sensors).lookup ch).any (fun h => h.isSome) = false := by
  constructor
  · simp [Sensors.build, process_config, _init_temperature, _init_humidity,
      _init_wind, _init_rain, _init_speed]
  · intro ch
    exact lookup_build_any_false store ch

/-- C10 (witness): the invariant at a concrete store with all five
sections present. -/
theorem build_handles_all_none_witness :
    (((Sensors.build ⟨[(SENSOR_TEMP, []), (SENSOR_HUMID, []), (SENSOR_WIND, []),
        (SENSOR_RAIN, []), (SENSOR_SPEED, [])]⟩)._sensors).all
      fun kv => kv.2.isNone) = true :=
  (build_handles_all_none ⟨[(SENSOR_TEMP, []), (SENSOR_HUMID, []), (SENSOR_WIND, []),
    (SENSOR_RAIN, []), (SENSOR_SPEED, [])]⟩).1

/-! ### Claim C3 -/

/-- C3 (counterexample): `_normalize_sensor_list(123)` raises `TypeError`
(the `all(...)` generator iterates its truthy non-iterable argument)
instead of yielding the claimed empty sequence. -/
theorem normalize_dyn_int_counterexample :
    _normalize_sensor_list_dyn (.vint 123) = .error .typeError ∧
    _normalize_sensor_list_dyn (.vint 123) ≠ .ok [] := by
  refine ⟨rfl, fun h => ?_⟩
  rw [show _normalize_sensor_list_dyn (.vint 123) = .error .typeError from rfl] at h
  exact Except.noConfusion h

/-- C3 (amended): the normalizer is total on strings and sequences — a
string splits on `|` when truthy and degrades to `[]` when empty, every
list input yields some list, `None` yields `[]`, and
`normalize("a|b|c") = ["a","b","c"]` — but a truthy non-sequence
non-string input such as the integer `123` raises `TypeError` rather
than yielding the empty sequence. -/
theorem normalize_dyn_spec :
    (∀ s : String, _normalize_sensor_list_dyn (.vstr s) =
        .ok (if s != "" then pySplit DELIM_STD s else [])) ∧
    (∀ xs : List PyVal, ∃ l, _normalize_sensor_list_dyn (.vlist xs) = .ok l) ∧
    _normalize_sensor_list_dyn .vnone = .ok [] ∧
    _normalize_sensor_list_dyn (.vstr "a|b|c") = .ok ["a", "b", "c"] ∧
    _normalize_sensor_list_dyn (.vint 123) = .error .typeError := by
  refine ⟨?_, ?_, rfl, rfl, rfl⟩
  · intro s
    by_cases h : s = ""
    · subst h; rfl
    · have hb : (s != "") = true := by simpa using h
      simp [_normalize_sensor_list_dyn, pyTruthy, hb]
  · intro xs
    cases hxe : xs.isEmpty
    · cases hall : allStrings xs with
      | none =>
        exact ⟨[], by simp [_normalize_sensor_list_dyn, pyTruthy, hxe, hall]⟩
      | some ss =>
        exact ⟨ss, by simp [_normalize_sensor_list_dyn, pyTruthy, hxe, hall]⟩
    · exact ⟨[], by simp [_normalize_sensor_list_dyn, pyTruthy, hxe]⟩

/-- C3 (witness): the amended statement applied at concrete inputs. -/
theorem normalize_dyn_spec_witness :
    _normalize_sensor_list_dyn (.vstr "a|b|c") = .ok ["a", "b", "c"] ∧
    _normalize_sensor_list_dyn (.vint 123) = .error .typeError :=
  ⟨normalize_dyn_spec.2.2.2.1, normalize_dyn_spec.2.2.2.2⟩

/-- The dynamic normalizer agrees with its restriction to the declared
argument type: on every `str`, `List[str]` or `None` argument it succeeds
with the restricted function's value. -/
theorem normalize_dyn_agrees (x : StrOrList) :
    _normalize_sensor_list_dyn x.toPyVal = .ok (_normalize_sensor_list x) := by
  cases x with
  | str s =>
    by_cases h : s = ""
    · subst h; rfl
    · have hb : (s != "") = true := by simpa using h
      simp [StrOrList.toPyVal, _normalize_sensor_list_dyn, _normalize_sensor_list,
        pyTruthy, hb]
  | list xs =>
    have hall : allStrings (xs.map PyVal.vstr) = some xs := by
      induction xs with
      | nil => rfl
      | cons a t ih => simp [allStrings, ih]
    cases hxe : xs.isEmpty with
    | true =>
      have : xs = [] := by simpa using hxe
      subst this; rfl
    | false =>
      have hxe2 : (xs.map PyVal.vstr).isEmpty = false := by
        cases xs with
        | nil => simp at hxe
        | cons a t => rfl
      simp [StrOrList.toPyVal, _normalize_sensor_list_dyn, _normalize_sensor_list,
        pyTruthy, hxe, hxe2, hall]
  | null => rfl

/-! ### Claim C4 -/

/-- C4 (counterexample): when the main section's `sensors` value is the
empty string, `default_sensors` is `[""]` — the one-element list holding
the empty string, as Python's `"".split("|")` — not the claimed empty
sequence. -/
theorem default_sensors_empty_counterexample :
    ConfigStore.get ⟨[(SENSOR_MAIN, [(KWD_SENSORS, "")])]⟩ SENSOR_MAIN KWD_SENSORS ""
        = "" ∧
    (Sensors.build ⟨[(SENSOR_MAIN, [(KWD_SENSORS, "")])]⟩)._default_sensors = [""] ∧
    ([""] : List String) ≠ [] := by
  refine ⟨rfl, rfl, by decide⟩

/-- C4 (amended): `default_sensors` is the main section's `sensors` value
split on `|`; when that value is the empty string the result is the
one-element sequence containing the empty string, not the empty
sequence. -/
theorem default_sensors_spec (store : ConfigStore) :
    (Sensors.build store)._default_sensors =
      pySplit DELIM_STD (store.get SENSOR_MAIN KWD_SENSORS "") ∧
    (store.get SENSOR_MAIN KWD_SENSORS "" = "" →
      (Sensors.build store)._default_sensors = [""]) := by
  refine ⟨rfl, fun h => ?_⟩
  show pySplit DELIM_STD (store.get SENSOR_MAIN KWD_SENSORS "") = [""]
  rw [h]
  rfl

/-- C4 (witness): the amended statement at a store whose main section has
`sensors = temperature|wind`, and at a store without a main section
(where the fallback value is the empty string). -/
theorem default_sensors_spec_witness :
    (Sensors.build ⟨[(SENSOR_MAIN, [(KWD_SENSORS, "temperature|wind")])]⟩)._default_sensors
        = ["temperature", "wind"] ∧
    (Sensors.build ⟨[]⟩)._default_sensors = [""] :=
  ⟨(default_sensors_spec ⟨[(SENSOR_MAIN, [(KWD_SENSORS, "temperature|wind")])]⟩).1,
   (default_sensors_spec ⟨[]⟩).2 rfl⟩

/-! ### Claim C5 -/

/-- The parse loop fails with `ConfigFileNotFound` naming the first
missing (expanded) path, and succeeds whenever every path exists,
whatever store has been accumulated so far. -/
theorem initIniParserGo_spec (fs : String → Option ConfigStore) (home : String) :
    ∀ (paths : List String) (acc : ConfigStore),
      (firstMissing fs home paths = Option.none →
        ∃ st, initIniParserGo fs home acc paths = .ok st) ∧
      ∀ p, firstMissing fs home paths = some p →
        initIniParserGo fs home acc paths = .error (.configFileNotFound p) := by
  intro paths
  induction paths with
  | nil =>
    intro acc
    refine ⟨fun _ => ⟨acc, rfl⟩, fun p hp => ?_⟩
    simp [firstMissing] at hp
  | cons fn rest ih =>
    intro acc
    constructor
    · intro h
      simp only [firstMissing] at h
      simp only [initIniParserGo]
      cases hfs : fs (expanduser home fn) with
      | none => rw [hfs] at h; simp at h
      | some content =>
        rw [hfs] at h
        simp at h
        exact (ih (acc.read content)).1 h
    · intro p hp
      simp only [firstMissing] at hp
      simp only [initIniParserGo]
      cases hfs : fs (expanduser home fn) with
      | none =>
        rw [hfs] at hp
        simp at hp
        subst hp
        rfl
      | some content =>
        rw [hfs] at hp
        simp at hp
        exact (ih (acc.read content)).2 p hp

/-- C5: `init_ini_parser` succeeds when every (expanded) path in the
sequence exists, and otherwise fails with `ConfigFileNotFound` naming the
first offending path. -/
theorem initIniParser_spec (fs : String → Option ConfigStore) (home : String)
    (paths : List String) :
    (firstMissing fs home paths = Option.none →
      ∃ st, initIniParser fs home paths = .ok st) ∧
    ∀ p, firstMissing fs home paths = some p →
      initIniParser fs home paths = .error (.configFileNotFound p) :=
  initIniParserGo_spec fs home paths ⟨[]⟩

/-- C5 (witness): on an empty filesystem, `parse(["/nonexistent/path"])`
fails with `ConfigFileNotFound` naming that exact path. -/
theorem initIniParser_spec_witness :
    initIniParser (fun _ => Option.none) "/root" ["/nonexistent/path"] =
      .error (.configFileNotFound "/nonexistent/path") :=
  (initIniParser_spec (fun _ => Option.none) "/root" ["/nonexistent/path"]).2
    "/nonexistent/path" rfl

/-! ### Claim C6 -/

/-- C6: registry construction is a total function of the store — the
embedding of `build` is defined for every `ConfigStore`, well-formed or
not, and its sensor map always carries exactly the five canonical keys in
order; a looked-up entry for an absent section is the normal value
`some None`, not an error. -/
theorem build_total_five_keys (store : ConfigStore) :
    (((Sensors.build store)._sensors).map Prod.fst =
      [SENSOR_TEMP, SENSOR_HUMID, SENSOR_WIND, SENSOR_RAIN, SENSOR_SPEED]) ∧
    ((Sensors.build store)._sensors).length = 5 := by
  exact ⟨rfl, rfl⟩

/-- C6 (witness): construction at a malformed store (a duplicated main
section with a stray key) still yields the five canonical keys. -/
theorem build_total_five_keys_witness :
    ((Sensors.build ⟨[(SENSOR_MAIN, [("junk", "")]), (SENSOR_MAIN, [])]⟩)._sensors).map
        Prod.fst =
      [SENSOR_TEMP, SENSOR_HUMID, SENSOR_WIND, SENSOR_RAIN, SENSOR_SPEED] :=
  (build_total_five_keys ⟨[(SENSOR_MAIN, [("junk", "")]), (SENSOR_MAIN, [])]⟩).1

/-! ### Claim C7 -/

/-- C7: `is_valid_sensor` is true iff the normalized list is non-empty
and every element passes the strict name check; in particular it is false
on the empty list, and false on `["bogus"]` whenever `bogus` is neither a
registry key nor an alias. -/
theorem is_valid_sensor_spec (st : Sensors) (inp : StrOrList) :
    (is_valid_sensor st inp = true ↔
      (_normalize_sensor_list inp ≠ [] ∧
        ∀ ch ∈ _normalize_sensor_list inp, _verify_sensor st ch true = true)) ∧
    is_valid_sensor st (.list []) = false ∧
    (st._sensors.lookup "bogus" = Option.none →
      st._sensor_map.lookup "bogus" = Option.none →
      is_valid_sensor st (.list ["bogus"]) = false) := by
  refine ⟨?_, rfl, fun h1 h2 => ?_⟩
  · unfold is_valid_sensor
    cases hl : _normalize_sensor_list inp with
    | nil => simp [hl]
    | cons a t => simp [hl, List.all_eq_true]
  · simp [is_valid_sensor, _normalize_sensor_list, _verify_sensor, h1, h2]

/-- C7 (witness): the statement applied at a registry with one alias —
`["temp"]` is a valid selection, `[]` and `["bogus"]` are not. -/
theorem is_valid_sensor_spec_witness :
    is_valid_sensor
        (Sensors.build ⟨[(SENSOR_MAIN, [(KWD_SENSOR_MAP, "temp:f451_temperature")])]⟩)
        (.list ["bogus"]) = false ∧
    is_valid_sensor
        (Sensors.build ⟨[(SENSOR_MAIN, [(KWD_SENSOR_MAP, "temp:f451_temperature")])]⟩)
        (.list ["temp"]) = true :=
  ⟨(is_valid_sensor_spec
      (Sensors.build ⟨[(SENSOR_MAIN, [(KWD_SENSOR_MAP, "temp:f451_temperature")])]⟩)
      (.list ["bogus"])).2.2 rfl rfl,
   (is_valid_sensor_spec
      (Sensors.build ⟨[(SENSOR_MAIN, [(KWD_SENSOR_MAP, "temp:f451_temperature")])]⟩)
      (.list ["temp"])).1.mpr (by decide)⟩

/-! ### Claim C8 -/

/-- C8: with `force=true`, `_verify_sensor` accepts exactly the non-empty
names that are a registry key or an alias; with `force=false` it accepts
exactly the non-empty names. -/
theorem verify_sensor_spec (st : Sensors) (ch : String) :
    (_verify_sensor st ch true = true ↔
      ch ≠ "" ∧
        ((st._sensors.lookup ch).isSome = true ∨
          (st._sensor_map.lookup ch).isSome = true)) ∧
    (_verify_sensor st ch false = true ↔ ch ≠ "") := by
  constructor
  · simp [_verify_sensor]
  · simp [_verify_sensor]

/-- C8 (witness): the statement applied at a concrete registry: the
canonical key `f451_wind` passes strict verification, and the empty name
fails the non-strict check. -/
theorem verify_sensor_spec_witness :
    _verify_sensor (Sensors.build ⟨[]⟩) "f451_wind" true = true ∧
    _verify_sensor (Sensors.build ⟨[]⟩) "" false = false :=
  ⟨(verify_sensor_spec (Sensors.build ⟨[]⟩) "f451_wind").1.mpr (by decide),
   by
    have h := (verify_sensor_spec (Sensors.build ⟨[]⟩) "").2
    simpa using h⟩

/-! ### Claim C9 -/

/-- First match among four candidates, unfolded. -/
theorem find4_getD (p : String → Bool) (a b c d : String) :
    (([a, b, c, d].find? p).getD "") =
      (if p a then a else if p b then b else if p c then c
       else if p d then d else "") := by
  cases ha : p a <;> cases hb : p b <;> cases hc : p c <;> cases hd : p d <;>
    simp [List.find?, ha, hb, hc, hd]

/-- C9: the config-file location is the explicit CLI path when that is
truthy, else the environment variable's value when truthy, else the first
existing path among the four default locations in order (current working
directory, install directory, home directory, `/etc/<app-name>/`), and
the empty string — not an error — when none of them exists. -/
theorem resolve_config_location_spec (fexists : String → Bool)
    (cliPath envVal : Option String) (cwd appDir home appName fname : String) :
    (∀ s, cliPath = some s → s ≠ "" →
      resolve_config_location fexists cliPath envVal cwd appDir home appName fname
        = s) ∧
    ((cliPath = Option.none ∨ cliPath = some "") → ∀ e, envVal = some e → e ≠ "" →
      resolve_config_location fexists cliPath envVal cwd appDir home appName fname
        = e) ∧
    ((cliPath = Option.none ∨ cliPath = some "") →
      (envVal = Option.none ∨ envVal = some "") →
      resolve_config_location fexists cliPath envVal cwd appDir home appName fname
        = get_valid_location fexists cwd appDir home appName fname) ∧
    (get_valid_location fexists cwd appDir home appName fname =
      (if fexists (cwd ++ "/" ++ stripSlashes fname) then
        cwd ++ "/" ++ stripSlashes fname
       else if fexists (appDir ++ "/" ++ stripSlashes fname) then
        appDir ++ "/" ++ stripSlashes fname
       else if fexists (home ++ "/" ++ stripSlashes fname) then
        home ++ "/" ++ stripSlashes fname
       else if fexists ("/etc/" ++ appName ++ "/" ++ stripSlashes fname) then
        "/etc/" ++ appName ++ "/" ++ stripSlashes fname
       else "")) := by
  refine ⟨?_, ?_, ?_, ?_⟩
  · intro s hs hne
    subst hs
    have hb : (s == "") = false := by simpa using hne
    simp [resolve_config_location, pyOrStr, hb]
  · rintro (hc | hc) e he hne <;> subst hc <;> subst he <;>
      have hb : (e == "") = false := by simpa using hne
    · simp [resolve_config_location, pyOrStr, hb]
    · simp [resolve_config_location, pyOrStr, hb]
  · rintro (hc | hc) (he | he) <;> subst hc <;> subst he <;>
      simp [resolve_config_location, pyOrStr]
  · exact find4_getD fexists _ _ _ _

/-- C9 (witness): the resolution order at concrete inputs — an explicit
CLI path wins; with a falsy CLI path and unset environment variable, the
search falls back to the home-directory default location when that is the
first existing one. -/
theorem resolve_config_location_spec_witness :
    resolve_config_location (fun _ => false) (some "/explicit/cfg.ini") Option.none
        "/cwd" "/app" "/home/u" "f451-sensors" "f451-sensors.config.ini"
      = "/explicit/cfg.ini" ∧
    resolve_config_location (fun q => q == "/home/u/f451-sensors.config.ini")
        Option.none (some "") "/cwd" "/app" "/home/u" "f451-sensors"
        "f451-sensors.config.ini"
      = "/home/u/f451-sensors.config.ini" := by
  constructor
  · exact (resolve_config_location_spec (fun _ => false) (some "/explicit/cfg.ini")
      Option.none "/cwd" "/app" "/home/u" "f451-sensors" "f451-sensors.config.ini").1
      "/explicit/cfg.ini" rfl (by decide)
  · have h := (resolve_config_location_spec
      (fun q => q == "/home/u/f451-sensors.config.ini") Option.none (some "")
      "/cwd" "/app" "/home/u" "f451-sensors" "f451-sensors.config.ini")
    rw [h.2.2.1 (Or.inl rfl) (Or.inr rfl), h.2.2.2]
    rfl

end F451
